import Mathlib

/-!
Verification of the analytics engine in `src/app.py` (flask-analitik-api).

Each endpoint's algorithmic core is embedded as a Lean function over the
already-deserialized query results (monetary amounts and quantities as `ℚ`,
standard deviation over `ℝ` since the source calls `math.sqrt`).  The HTTP,
CORS and MySQL plumbing is out of scope; where a claim depends on the shape of
a SQL aggregation (GROUP BY / ORDER BY), that aggregation is modelled
explicitly on lists of records.  Display-only rounding (`round(x, 2)` before
JSON serialization) is not modelled; all theorems are about the unrounded
values the code computes and branches on.
-/

/-! ### sales_trend (src/app.py lines 64-156)

The endpoint reduces to a pure computation on the two period revenue totals
returned by the SQL queries (`current_sales`, `previous_sales`). -/

/-- `percentage_change = (difference / previous * 100) if previous > 0 else 0`
(src/app.py lines 101-102). -/
def percentageChange (currentSales previousSales : ℚ) : ℚ :=
  if 0 < previousSales then (currentSales - previousSales) / previousSales * 100 else 0

/-- The trend label assignment of src/app.py lines 105-113: default `stabil`,
`|pc| > 20` gives the significant labels, `|pc| > 10` the moderate ones. -/
def trendLabel (pc : ℚ) : String :=
  if 20 < |pc| then (if 0 < pc then "naik_signifikan" else "turun_signifikan")
  else if 10 < |pc| then (if 0 < pc then "naik" else "turun")
  else "stabil"

/-- The confidence label of src/app.py lines 106-113: `high` on the
significant band, `medium` otherwise. -/
def trendConfidence (pc : ℚ) : String :=
  if 20 < |pc| then "high" else "medium"

/-- The fixed per-label recommendation text of src/app.py lines 116-125. -/
def trendRecommendation (trend : String) : String :=
  if trend = "naik_signifikan" then
    "Penjualan meningkat signifikan. Pertimbangkan untuk meningkatkan stok dan promosi."
  else if trend = "turun_signifikan" then
    "Penjualan menurun signifikan. Evaluasi strategi pemasaran dan cek kompetitor."
  else if trend = "naik" then
    "Penjualan menunjukkan tren positif. Pertahankan strategi yang ada."
  else if trend = "turun" then
    "Penjualan sedikit menurun. Monitor lebih lanjut dan pertimbangkan promosi."
  else
    "Penjualan stabil. Pertahankan performa yang ada."

/-- The numeric and textual payload of the sales-trend response
(src/app.py lines 130-150), minus the period date strings. -/
structure TrendResult where
  trend : String
  currentTotal : ℚ
  previousTotal : ℚ
  difference : ℚ
  percentageChange : ℚ
  confidence : String
  recommendation : String
  deriving Repr, DecidableEq

/-- The sales-trend computation on the two query totals
(src/app.py lines 101-150). -/
def salesTrend (currentSales previousSales : ℚ) : TrendResult :=
  let pc := percentageChange currentSales previousSales
  { trend := trendLabel pc
    currentTotal := currentSales
    previousTotal := previousSales
    difference := currentSales - previousSales
    percentageChange := pc
    confidence := trendConfidence pc
    recommendation := trendRecommendation (trendLabel pc) }

/-! ### customer_analysis (src/app.py lines 368-456)

Per-customer segmentation on the aggregates returned by the SQL query
(`total_pesanan` = order count, `total_pendapatan` = revenue); the endpoint
fixes the lookback `days = 90`. -/

/-- `avg_order_value` of src/app.py line 411: revenue over order count,
guarded to `0` when the order count is `0`. -/
def avgOrderValue (totalPendapatan : ℚ) (totalPesanan : ℕ) : ℚ :=
  if 0 < totalPesanan then totalPendapatan / totalPesanan else 0

/-- `frequency = total_pesanan / (days / 30)` of src/app.py line 412
(orders per month over the lookback). -/
def frequencyPerMonth (totalPesanan : ℕ) (days : ℚ) : ℚ :=
  (totalPesanan : ℚ) / (days / 30)

/-- The rule-based segmentation of src/app.py lines 415-419:
`vip` when value > 500000 and frequency > 4, else `premium` when
value > 300000 or frequency > 2, else `regular`. -/
def customerSegment (totalPendapatan : ℚ) (totalPesanan : ℕ) (days : ℚ) : String :=
  if 500000 < avgOrderValue totalPendapatan totalPesanan ∧
      4 < frequencyPerMonth totalPesanan days then "vip"
  else if 300000 < avgOrderValue totalPendapatan totalPesanan ∨
      2 < frequencyPerMonth totalPesanan days then "premium"
  else "regular"

/-- The per-segment recommendation text of src/app.py lines 422-429, with the
extra `frequency < 1` branch for regular customers. -/
def customerRecommendation (totalPendapatan : ℚ) (totalPesanan : ℕ) (days : ℚ) : String :=
  if customerSegment totalPendapatan totalPesanan days = "vip" then
    "Pelanggan VIP - Berikan layanan prioritas dan program loyalitas khusus."
  else if customerSegment totalPendapatan totalPesanan days = "premium" then
    "Pelanggan Premium - Tawarkan diskon dan program loyalitas."
  else if frequencyPerMonth totalPesanan days < 1 then
    "Pelanggan jarang - Kirim promosi untuk meningkatkan frekuensi pembelian."
  else
    "Pelanggan reguler - Pertahankan dengan layanan yang baik."

/-! ### sales_prediction (src/app.py lines 161-246)

The SQL query groups counted orders on or after `start_date` by calendar day,
sums `total_pesanan` per day and orders the rows by date ascending; the Python
code then works on the resulting list of daily totals.  Orders are modelled
with their calendar day as an integer. -/

/-- One row of the `pesanan` table as the prediction/trend queries see it:
calendar day of `created_at`, `total_pesanan`, and `status_pesanan`. -/
structure Order where
  day : ℤ
  total : ℚ
  status : String
  deriving Repr, DecidableEq

/-- The status filter `status_pesanan IN ('selesai', 'siap_diambil',
'dikonfirmasi', 'diproses')` shared by every query in src/app.py. -/
def countedStatus (s : String) : Bool :=
  s = "selesai" ∨ s = "siap_diambil" ∨ s = "dikonfirmasi" ∨ s = "diproses"

/-- The rows the prediction query keeps: counted status and
`created_at >= start_date` (src/app.py lines 180-188). -/
def predictionRows (orders : List Order) (startDay : ℤ) : List Order :=
  orders.filter (fun o => countedStatus o.status && decide (startDay ≤ o.day))

/-- `GROUP BY DATE(created_at) ORDER BY date ASC` of src/app.py lines 180-189:
the distinct days carrying kept rows, ascending.  Only days that actually have
rows appear; there is no gap-filling. -/
def salesDays (orders : List Order) (startDay : ℤ) : List ℤ :=
  List.insertionSort (· ≤ ·) ((predictionRows orders startDay).map (·.day)).dedup

/-- The `daily_sales` list of src/app.py line 189, projected to the `total`
column: per distinct day, the sum of `total_pesanan` over that day. -/
def dailyTotals (orders : List Order) (startDay : ℤ) : List ℚ :=
  (salesDays orders startDay).map
    (fun d => (((predictionRows orders startDay).filter
      (fun o => decide (o.day = d))).map (·.total)).sum)

/-- `average_daily = total_sales / total_days if total_days > 0 else 0`
(src/app.py lines 205-207), with `total_days = len(daily_sales)`. -/
def averageDaily (ds : List ℚ) : ℚ :=
  if 0 < ds.length then ds.sum / (ds.length : ℚ) else 0

/-- `variance = sum((x - average_daily)**2) / total_days`
(src/app.py line 210) — the population variance of the daily totals. -/
def popVariance (ds : List ℚ) : ℚ :=
  (ds.map (fun x => (x - averageDaily ds) ^ 2)).sum / (ds.length : ℚ)

/-- `std_dev = math.sqrt(variance)` (src/app.py line 211). -/
noncomputable def stdDev (ds : List ℚ) : ℝ :=
  Real.sqrt ((popVariance ds : ℚ) : ℝ)

/-- `coefficient_of_variation = (std_dev / average_daily * 100) if
average_daily > 0 else 0` (src/app.py line 212). -/
noncomputable def coefficientOfVariation (ds : List ℚ) : ℝ :=
  if 0 < averageDaily ds then stdDev ds / ((averageDaily ds : ℚ) : ℝ) * 100 else 0

/-- The confidence label of src/app.py lines 218-223: CV below 20 is `high`,
CV above 50 is `low`, anything in between is `medium`. -/
noncomputable def predictionConfidence (ds : List ℚ) : String :=
  if coefficientOfVariation ds < 20 then "high"
  else if 50 < coefficientOfVariation ds then "low"
  else "medium"

/-- The fields shared by both branches of the sales-prediction response
(src/app.py lines 194-202 and 228-240). -/
structure PredictionResult where
  prediction : ℚ
  confidence : String
  method : String
  deriving Repr, DecidableEq

/-- The sales-prediction computation of src/app.py lines 180-240: empty
`daily_sales` returns the insufficient-data result, otherwise the prediction
is `average_daily * days_ahead` with CV-based confidence. -/
noncomputable def salesPrediction (orders : List Order) (startDay : ℤ)
    (daysAhead : ℚ) : PredictionResult :=
  let ds := dailyTotals orders startDay
  if ds = [] then
    { prediction := 0, confidence := "low", method := "insufficient_data" }
  else
    { prediction := averageDaily ds * daysAhead
      confidence := predictionConfidence ds
      method := "moving_average" }

/-! ### product_recommendations (src/app.py lines 251-363)

The top-products query yields per-product sold quantity and revenue; the loop
looks each product up in the `produk` table (skipping missing ones, line 296),
computes a days-until-stockout figure and attaches rule-based actions.  The
lookback is fixed at `days = 30`.  Action messages and the display rounding of
`days_until_stockout` / `recommended_quantity` are presentation only and are
not modelled; an action is its `type` and `priority`. -/

/-- One row of the top-products query (src/app.py lines 269-283). -/
structure SoldItem where
  produkId : ℕ
  totalTerjual : ℚ
  totalPendapatan : ℚ
  deriving Repr, DecidableEq

/-- One row of the `produk` table as queried in src/app.py lines 289-294. -/
structure Produk where
  id : ℕ
  namaProduk : String
  stokDus : ℚ
  stokPack : ℚ
  stokSatuan : ℚ
  isActive : Bool
  deriving Repr, DecidableEq

/-- An entry of a recommendation's `actions` list (type and priority;
src/app.py lines 317-346). -/
structure PAction where
  type : String
  priority : String
  deriving Repr, DecidableEq

/-- `average_daily_sales = total_terjual / days` with `days = 30`
(src/app.py line 300). -/
def averageDailySales (item : SoldItem) : ℚ :=
  item.totalTerjual / 30

/-- `total_stock = stok_dus + stok_pack + stok_satuan` (src/app.py line 301). -/
def totalStock (produk : Produk) : ℚ :=
  produk.stokDus + produk.stokPack + produk.stokSatuan

/-- `days_until_stockout = total_stock / average_daily_sales if
average_daily_sales > 0 else 0` (src/app.py line 302). -/
def daysUntilStockout (item : SoldItem) (produk : Produk) : ℚ :=
  if 0 < averageDailySales item then totalStock produk / averageDailySales item else 0

/-- The action rules of src/app.py lines 316-346 for one product:
`restock_urgent` when `0 < days_until_stockout < 7`, else `restock` when
`0 < days_until_stockout < 14`; `activate` for inactive products with sales;
`promote` when the quantity exceeds half of the top product's quantity
(`top0Terjual`). -/
def recommendationActions (top0Terjual : ℚ) (item : SoldItem) (produk : Produk) :
    List PAction :=
  (if daysUntilStockout item produk < 7 ∧ 0 < daysUntilStockout item produk then
     [{ type := "restock_urgent", priority := "high" }]
   else if daysUntilStockout item produk < 14 ∧ 0 < daysUntilStockout item produk then
     [{ type := "restock", priority := "medium" }]
   else [])
  ++ (if !produk.isActive ∧ 0 < item.totalTerjual then
        [{ type := "activate", priority := "medium" }]
      else [])
  ++ (if top0Terjual * (1 / 2) < item.totalTerjual then
        [{ type := "promote", priority := "low" }]
      else [])

/-- One entry of the endpoint's recommendation list, keyed by product id
(src/app.py lines 304-314 and 348). -/
structure ProdRec where
  produkId : ℕ
  actions : List PAction
  deriving Repr, DecidableEq

/-- The loop of src/app.py lines 287-348: each top product is looked up in the
`produk` table (missing products are skipped via `continue`), and the action
rules are evaluated against the first element of `top_products`. -/
def productRecommendations (topProducts : List SoldItem) (table : List Produk) :
    List ProdRec :=
  match topProducts with
  | [] => []
  | t0 :: _ =>
    topProducts.filterMap (fun item =>
      (table.find? (fun p => p.id == item.produkId)).map (fun produk =>
        { produkId := produk.id
          actions := recommendationActions t0.totalTerjual item produk }))

/-! ### time_analysis (src/app.py lines 461-560)

Both SQL queries group counted orders of the last 30 days — by `HOUR` and by
`(DAYOFWEEK, DAYNAME)` respectively — aggregating order count and revenue, and
sort the groups by revenue descending (`ORDER BY total_pendapatan DESC`). -/

/-- One row of `pesanan` as the time-analysis queries see it. -/
structure TOrder where
  day : ℤ
  hour : ℕ
  dayOfWeek : ℕ
  dayName : String
  total : ℚ
  status : String
  deriving Repr, DecidableEq

/-- The rows both time-analysis queries keep (src/app.py lines 477-505). -/
def timeRows (orders : List TOrder) (startDay : ℤ) : List TOrder :=
  orders.filter (fun o => countedStatus o.status && decide (startDay ≤ o.day))

/-- One row of the hourly aggregation (src/app.py lines 477-489, 508-513). -/
structure HourRow where
  hour : ℕ
  jumlahPesanan : ℕ
  totalPendapatan : ℚ
  deriving Repr, DecidableEq

/-- One row of the day-of-week aggregation (src/app.py lines 492-505,
516-521). -/
structure DayRow where
  dayOfWeek : ℕ
  dayName : String
  jumlahPesanan : ℕ
  totalPendapatan : ℚ
  deriving Repr, DecidableEq

/-- `ORDER BY total_pendapatan DESC` on hourly rows: row `a` may precede
row `b` when `b`'s revenue is at most `a`'s. -/
def hourRevDesc (a b : HourRow) : Prop :=
  b.totalPendapatan ≤ a.totalPendapatan

/-- `ORDER BY total_pendapatan DESC` on day-of-week rows. -/
def dayRevDesc (a b : DayRow) : Prop :=
  b.totalPendapatan ≤ a.totalPendapatan

instance : DecidableRel hourRevDesc :=
  fun a b => inferInstanceAs (Decidable (b.totalPendapatan ≤ a.totalPendapatan))

instance : DecidableRel dayRevDesc :=
  fun a b => inferInstanceAs (Decidable (b.totalPendapatan ≤ a.totalPendapatan))

instance : IsTotal HourRow hourRevDesc :=
  ⟨fun a b => le_total b.totalPendapatan a.totalPendapatan⟩

instance : IsTrans HourRow hourRevDesc :=
  ⟨fun _ _ _ h1 h2 => le_trans h2 h1⟩

instance : IsTotal DayRow dayRevDesc :=
  ⟨fun a b => le_total b.totalPendapatan a.totalPendapatan⟩

instance : IsTrans DayRow dayRevDesc :=
  ⟨fun _ _ _ h1 h2 => le_trans h2 h1⟩

/-- The `hourly_sales` result (src/app.py lines 477-489): one row per distinct
hour among the kept orders, with order count and summed revenue, sorted by
revenue descending. -/
def hourlyRows (orders : List TOrder) (startDay : ℤ) : List HourRow :=
  let f := timeRows orders startDay
  List.insertionSort hourRevDesc
    (((f.map (·.hour)).dedup).map (fun h =>
      { hour := h
        jumlahPesanan := (f.filter (fun o => decide (o.hour = h))).length
        totalPendapatan :=
          ((f.filter (fun o => decide (o.hour = h))).map (·.total)).sum }))

/-- The `daily_sales` result of time_analysis (src/app.py lines 492-505): one
row per distinct `(DAYOFWEEK, DAYNAME)` pair, sorted by revenue descending. -/
def dayOfWeekRows (orders : List TOrder) (startDay : ℤ) : List DayRow :=
  let f := timeRows orders startDay
  List.insertionSort dayRevDesc
    (((f.map (fun o => (o.dayOfWeek, o.dayName))).dedup).map (fun k =>
      { dayOfWeek := k.1
        dayName := k.2
        jumlahPesanan :=
          (f.filter (fun o => decide ((o.dayOfWeek, o.dayName) = k))).length
        totalPendapatan :=
          ((f.filter (fun o => decide ((o.dayOfWeek, o.dayName) = k))).map
            (·.total)).sum }))

/-- `best_hour = hourly_data[0] if hourly_data else None` (src/app.py
line 524). -/
def bestHour (orders : List TOrder) (startDay : ℤ) : Option HourRow :=
  (hourlyRows orders startDay).head?

/-- `best_day = daily_data[0] if daily_data else None` (src/app.py line 525). -/
def bestDay (orders : List TOrder) (startDay : ℤ) : Option DayRow :=
  (dayOfWeekRows orders startDay).head?

/-- The recommendation list of src/app.py lines 528-532: one string per
present best entry, unconditionally on its order count. -/
def timeRecommendations (orders : List TOrder) (startDay : ℤ) : List String :=
  (match bestHour orders startDay with
   | some h =>
     ["Jam terbaik untuk penjualan: " ++ toString h.hour ++
      ":00. Pastikan staf dan stok siap pada jam ini."]
   | none => []) ++
  (match bestDay orders startDay with
   | some d =>
     ["Hari terbaik untuk penjualan: " ++ d.dayName ++
      ". Rencanakan promosi atau event pada hari ini."]
   | none => [])

/-! ### Helper lemmas: band characterizations of the trend classifier -/

lemma trendLabel_naik_sig_iff (pc : ℚ) : trendLabel pc = "naik_signifikan" ↔ 20 < pc := by
  unfold trendLabel
  split_ifs with h1 h2 h3 h4
  · exact iff_of_true rfl (by rwa [abs_of_pos h2] at h1)
  · exact iff_of_false (by decide) (fun hx => h2 (lt_trans (by norm_num) hx))
  · exact iff_of_false (by decide) (fun hx => h1 (lt_of_lt_of_le hx (le_abs_self pc)))
  · exact iff_of_false (by decide) (fun hx => h4 (lt_trans (by norm_num) hx))
  · exact iff_of_false (by decide) (fun hx => h1 (lt_of_lt_of_le hx (le_abs_self pc)))

lemma trendLabel_turun_sig_iff (pc : ℚ) : trendLabel pc = "turun_signifikan" ↔ pc < -20 := by
  unfold trendLabel
  split_ifs with h1 h2 h3 h4
  · exact iff_of_false (by decide) (fun hx => absurd h2 (by intro h0; linarith))
  · exact iff_of_true rfl (by rw [abs_of_nonpos (le_of_not_lt h2)] at h1; linarith)
  · exact iff_of_false (by decide)
      (fun hx => h1 (lt_of_lt_of_le (by linarith) (neg_le_abs pc)))
  · exact iff_of_false (by decide)
      (fun hx => h1 (lt_of_lt_of_le (by linarith) (neg_le_abs pc)))
  · exact iff_of_false (by decide)
      (fun hx => h1 (lt_of_lt_of_le (by linarith) (neg_le_abs pc)))

lemma trendLabel_naik_iff (pc : ℚ) : trendLabel pc = "naik" ↔ 10 < pc ∧ pc ≤ 20 := by
  unfold trendLabel
  split_ifs with h1 h2 h3 h4
  · exact iff_of_false (by decide)
      (fun hx => absurd h1 (by rw [abs_of_pos h2]; linarith [hx.2]))
  · exact iff_of_false (by decide) (fun hx => h2 (lt_trans (by norm_num) hx.1))
  · refine iff_of_true rfl ⟨by rwa [abs_of_pos h4] at h3, ?_⟩
    have := le_of_not_lt h1
    calc pc ≤ |pc| := le_abs_self pc
    _ ≤ 20 := this
  · exact iff_of_false (by decide) (fun hx => h4 (lt_trans (by norm_num) hx.1))
  · exact iff_of_false (by decide)
      (fun hx => h3 (lt_of_lt_of_le hx.1 (le_abs_self pc)))

lemma trendLabel_turun_iff (pc : ℚ) : trendLabel pc = "turun" ↔ -20 ≤ pc ∧ pc < -10 := by
  unfold trendLabel
  split_ifs with h1 h2 h3 h4
  · exact iff_of_false (by decide) (fun hx => absurd h2 (by intro h0; linarith [hx.2]))
  · exact iff_of_false (by decide)
      (fun hx => absurd h1 (by rw [abs_of_nonpos (le_of_not_lt h2)]; linarith [hx.1]))
  · exact iff_of_false (by decide) (fun hx => absurd h4 (by intro h0; linarith [hx.2]))
  · refine iff_of_true rfl ⟨?_, ?_⟩
    · have := le_of_not_lt h1
      have h5 : -pc ≤ |pc| := neg_le_abs pc
      linarith
    · rw [abs_of_nonpos (le_of_not_lt h4)] at h3; linarith
  · exact iff_of_false (by decide)
      (fun hx => h3 (lt_of_lt_of_le (by linarith [hx.2]) (neg_le_abs pc)))

lemma trendLabel_stabil_iff (pc : ℚ) : trendLabel pc = "stabil" ↔ |pc| ≤ 10 := by
  unfold trendLabel
  split_ifs with h1 h2 h3 h4
  · exact iff_of_false (by decide) (fun hx => absurd h1 (by linarith))
  · exact iff_of_false (by decide) (fun hx => absurd h1 (by linarith))
  · exact iff_of_false (by decide) (fun hx => absurd h3 (by linarith))
  · exact iff_of_false (by decide) (fun hx => absurd h3 (by linarith))
  · exact iff_of_true rfl (le_of_not_lt h3)

lemma trendConfidence_high_iff (pc : ℚ) : trendConfidence pc = "high" ↔ 20 < |pc| := by
  unfold trendConfidence
  split_ifs with h1
  · exact iff_of_true rfl h1
  · exact iff_of_false (by decide) h1

lemma trendConfidence_medium_iff (pc : ℚ) : trendConfidence pc = "medium" ↔ |pc| ≤ 20 := by
  unfold trendConfidence
  split_ifs with h1
  · exact iff_of_false (by decide) (fun hx => absurd h1 (not_lt.mpr hx))
  · exact iff_of_true rfl (le_of_not_lt h1)

/-! ### Claims about sales_trend -/

/-- C4: for previous-period revenue > 0 the percentage change is
`(current - previous) / previous * 100`, the trend label bands are
`naik_signifikan`/`turun_signifikan` (confidence `high`) beyond ±20%,
`naik`/`turun` (confidence `medium`) beyond ±10%, `stabil` (confidence
`medium`) otherwise, and each label carries its one fixed recommendation
string. -/
theorem salesTrend_banding (cur prev : ℚ) (h : 0 < prev) :
    (salesTrend cur prev).percentageChange = (cur - prev) / prev * 100 ∧
    ((salesTrend cur prev).trend = "naik_signifikan" ↔
      20 < (salesTrend cur prev).percentageChange) ∧
    ((salesTrend cur prev).trend = "turun_signifikan" ↔
      (salesTrend cur prev).percentageChange < -20) ∧
    ((salesTrend cur prev).trend = "naik" ↔
      10 < (salesTrend cur prev).percentageChange ∧
        (salesTrend cur prev).percentageChange ≤ 20) ∧
    ((salesTrend cur prev).trend = "turun" ↔
      -20 ≤ (salesTrend cur prev).percentageChange ∧
        (salesTrend cur prev).percentageChange < -10) ∧
    ((salesTrend cur prev).trend = "stabil" ↔
      |(salesTrend cur prev).percentageChange| ≤ 10) ∧
    ((salesTrend cur prev).confidence = "high" ↔
      20 < |(salesTrend cur prev).percentageChange|) ∧
    ((salesTrend cur prev).confidence = "medium" ↔
      |(salesTrend cur prev).percentageChange| ≤ 20) ∧
    (salesTrend cur prev).recommendation =
      trendRecommendation ((salesTrend cur prev).trend) ∧
    trendRecommendation "naik_signifikan" =
      "Penjualan meningkat signifikan. Pertimbangkan untuk meningkatkan stok dan promosi." ∧
    trendRecommendation "turun_signifikan" =
      "Penjualan menurun signifikan. Evaluasi strategi pemasaran dan cek kompetitor." ∧
    trendRecommendation "naik" =
      "Penjualan menunjukkan tren positif. Pertahankan strategi yang ada." ∧
    trendRecommendation "turun" =
      "Penjualan sedikit menurun. Monitor lebih lanjut dan pertimbangkan promosi." ∧
    trendRecommendation "stabil" =
      "Penjualan stabil. Pertahankan performa yang ada." := by
  refine ⟨?_, trendLabel_naik_sig_iff _, trendLabel_turun_sig_iff _,
    trendLabel_naik_iff _, trendLabel_turun_iff _, trendLabel_stabil_iff _,
    trendConfidence_high_iff _, trendConfidence_medium_iff _, rfl,
    by decide, by decide, by decide, by decide, by decide⟩
  show percentageChange cur prev = (cur - prev) / prev * 100
  unfold percentageChange
  rw [if_pos h]

/-- Witness for C4 at current = 130, previous = 100 (a 30% increase). -/
theorem salesTrend_banding_witness :
    (salesTrend 130 100).trend = "naik_signifikan" ∧
    (salesTrend 130 100).confidence = "high" := by
  have h := salesTrend_banding 130 100 (by norm_num)
  have hpc : (salesTrend 130 100).percentageChange = 30 := by
    show percentageChange 130 100 = 30
    unfold percentageChange
    rw [if_pos (by norm_num : (0:ℚ) < 100)]
    norm_num
  have habs : |(30:ℚ)| = 30 := abs_of_pos (by norm_num)
  exact ⟨h.2.1.mpr (by rw [hpc]; norm_num),
    h.2.2.2.2.2.2.1.mpr (by rw [hpc, habs]; norm_num)⟩

/-- C5: when the previous period's revenue is 0 the division is guarded —
the percentage change falls back to 0, the trend is classified `stabil`
(neither a growth nor a decline label) with confidence `medium`, and the
computation is total (no fault). -/
theorem salesTrend_zero_previous (cur prev : ℚ) (h : prev = 0) :
    (salesTrend cur prev).percentageChange = 0 ∧
    (salesTrend cur prev).trend = "stabil" ∧
    (salesTrend cur prev).confidence = "medium" ∧
    (salesTrend cur prev).recommendation =
      "Penjualan stabil. Pertahankan performa yang ada." := by
  subst h
  have hpc : percentageChange cur 0 = 0 := by unfold percentageChange; norm_num
  refine ⟨hpc, ?_, ?_, ?_⟩
  · show trendLabel (percentageChange cur 0) = "stabil"
    rw [hpc]; decide
  · show trendConfidence (percentageChange cur 0) = "medium"
    rw [hpc]; decide
  · show trendRecommendation (trendLabel (percentageChange cur 0)) = _
    rw [hpc]; decide

/-- Witness for C5 at current = 500, previous = 0. -/
theorem salesTrend_zero_previous_witness :
    (salesTrend 500 0).percentageChange = 0 ∧
    (salesTrend 500 0).trend = "stabil" := by
  have h := salesTrend_zero_previous 500 0 rfl
  exact ⟨h.1, h.2.1⟩

/-- C8 counterexample: at current = 0, previous = 100 the `difference` field
of the sales-trend output is −100, a negative numeric output that is not the
percentage-change figure; the claim as stated is false. -/
theorem salesTrend_difference_negative :
    (salesTrend 0 100).difference = -100 ∧ (salesTrend 0 100).difference < 0 ∧
    (salesTrend 0 100).percentageChange = -100 := by
  refine ⟨?_, ?_, ?_⟩
  · show (0:ℚ) - 100 = -100; norm_num
  · show (0:ℚ) - 100 < 0; norm_num
  · show percentageChange 0 100 = -100
    unfold percentageChange
    rw [if_pos (by norm_num : (0:ℚ) < 100)]
    norm_num

/-- C8 amended: for non-negative period totals, the numeric outputs of the
sales-trend analysis are non-negative except the percentage-change and the
difference figures, which may be negative; the percentage change is moreover
bounded below by −100 (finite). -/
theorem salesTrend_totals_nonneg (cur prev : ℚ) (h1 : 0 ≤ cur) (h2 : 0 ≤ prev) :
    0 ≤ (salesTrend cur prev).currentTotal ∧
    0 ≤ (salesTrend cur prev).previousTotal ∧
    -100 ≤ (salesTrend cur prev).percentageChange := by
  refine ⟨h1, h2, ?_⟩
  show -100 ≤ percentageChange cur prev
  unfold percentageChange
  split_ifs with hp
  · rw [div_mul_eq_mul_div, le_div_iff₀ hp]; nlinarith
  · norm_num

/-- Witness for the amended C8 at current = 5, previous = 7. -/
theorem salesTrend_totals_nonneg_witness :
    (0:ℚ) ≤ 5 ∧ (0:ℚ) ≤ 7 ∧
    (0 ≤ (salesTrend 5 7).currentTotal ∧ 0 ≤ (salesTrend 5 7).previousTotal ∧
      -100 ≤ (salesTrend 5 7).percentageChange) :=
  ⟨by norm_num, by norm_num, salesTrend_totals_nonneg 5 7 (by norm_num) (by norm_num)⟩

/-! ### Helper lemmas: the customer segmentation rule -/

lemma customerSegment_vip_iff (p : ℚ) (n : ℕ) (d : ℚ) :
    customerSegment p n d = "vip" ↔
      500000 < avgOrderValue p n ∧ 4 < frequencyPerMonth n d := by
  unfold customerSegment
  split_ifs with h1 h2
  · exact iff_of_true rfl h1
  · exact iff_of_false (by decide) h1
  · exact iff_of_false (by decide) h1

lemma customerSegment_premium_iff (p : ℚ) (n : ℕ) (d : ℚ) :
    customerSegment p n d = "premium" ↔
      ¬(500000 < avgOrderValue p n ∧ 4 < frequencyPerMonth n d) ∧
        (300000 < avgOrderValue p n ∨ 2 < frequencyPerMonth n d) := by
  unfold customerSegment
  split_ifs with h1 h2
  · exact iff_of_false (by decide) (fun hx => hx.1 h1)
  · exact iff_of_true rfl ⟨h1, h2⟩
  · exact iff_of_false (by decide) (fun hx => h2 hx.2)

lemma customerSegment_regular_iff (p : ℚ) (n : ℕ) (d : ℚ) :
    customerSegment p n d = "regular" ↔
      ¬(500000 < avgOrderValue p n ∧ 4 < frequencyPerMonth n d) ∧
        ¬(300000 < avgOrderValue p n ∨ 2 < frequencyPerMonth n d) := by
  unfold customerSegment
  split_ifs with h1 h2
  · exact iff_of_false (by decide) (fun hx => hx.1 h1)
  · exact iff_of_false (by decide) (fun hx => hx.2 h2)
  · exact iff_of_true rfl ⟨h1, h2⟩

lemma customerSegment_cases (p : ℚ) (n : ℕ) (d : ℚ) :
    customerSegment p n d = "vip" ∨ customerSegment p n d = "premium" ∨
      customerSegment p n d = "regular" := by
  unfold customerSegment
  split_ifs <;> simp

lemma customerRecommendation_infrequent_iff (p : ℚ) (n : ℕ) (d : ℚ) :
    customerRecommendation p n d =
        "Pelanggan jarang - Kirim promosi untuk meningkatkan frekuensi pembelian." ↔
      customerSegment p n d = "regular" ∧ frequencyPerMonth n d < 1 := by
  unfold customerRecommendation
  split_ifs with g1 g2 g3
  · refine iff_of_false (by decide) (fun hx => ?_)
    rw [hx.1] at g1; exact absurd g1 (by decide)
  · refine iff_of_false (by decide) (fun hx => ?_)
    rw [hx.1] at g2; exact absurd g2 (by decide)
  · refine iff_of_true rfl ⟨?_, g3⟩
    rcases customerSegment_cases p n d with h | h | h
    · exact absurd h g1
    · exact absurd h g2
    · exact h
  · exact iff_of_false (by decide) (fun hx => g3 hx.2)

/-! ### Claim about customer_analysis -/

/-- C6: per customer, the average order value is revenue over order count
(0 when the count is 0), the frequency is the order count over
`lookback_days / 30`, and the segments are assigned with first-match
precedence — `vip` when value > 500000 and frequency > 4, else `premium` when
value > 300000 or frequency > 2, else `regular` — while a `regular` customer
gets the infrequent-customer recommendation text exactly when the frequency is
below 1, the segment label staying `regular`. -/
theorem customerAnalysis_segmentation (p : ℚ) (n : ℕ) (d : ℚ) :
    avgOrderValue p n = (if 0 < n then p / (n : ℚ) else 0) ∧
    frequencyPerMonth n d = (n : ℚ) / (d / 30) ∧
    (customerSegment p n d = "vip" ↔
      500000 < avgOrderValue p n ∧ 4 < frequencyPerMonth n d) ∧
    (customerSegment p n d = "premium" ↔
      ¬(500000 < avgOrderValue p n ∧ 4 < frequencyPerMonth n d) ∧
        (300000 < avgOrderValue p n ∨ 2 < frequencyPerMonth n d)) ∧
    (customerSegment p n d = "regular" ↔
      ¬(500000 < avgOrderValue p n ∧ 4 < frequencyPerMonth n d) ∧
        ¬(300000 < avgOrderValue p n ∨ 2 < frequencyPerMonth n d)) ∧
    (customerRecommendation p n d =
        "Pelanggan jarang - Kirim promosi untuk meningkatkan frekuensi pembelian." ↔
      customerSegment p n d = "regular" ∧ frequencyPerMonth n d < 1) :=
  ⟨rfl, rfl, customerSegment_vip_iff p n d, customerSegment_premium_iff p n d,
    customerSegment_regular_iff p n d, customerRecommendation_infrequent_iff p n d⟩

/-! ### Claims about sales_prediction -/

/-- C1: for a non-empty series of non-negative daily totals, the coefficient
of variation is the population standard deviation over the mean as a
percentage (0 when the mean is 0), and the confidence label is `high` exactly
when CV < 20, `low` exactly when CV > 50, and `medium` otherwise. -/
theorem predictionConfidence_cv_bands (ds : List ℚ) (hne : ds ≠ [])
    (hnn : ∀ x ∈ ds, 0 ≤ x) :
    (averageDaily ds = 0 → coefficientOfVariation ds = 0) ∧
    (0 < averageDaily ds →
      coefficientOfVariation ds =
        Real.sqrt ((popVariance ds : ℚ) : ℝ) / ((averageDaily ds : ℚ) : ℝ) * 100) ∧
    (predictionConfidence ds = "high" ↔ coefficientOfVariation ds < 20) ∧
    (predictionConfidence ds = "low" ↔ 50 < coefficientOfVariation ds) ∧
    (predictionConfidence ds = "medium" ↔
      20 ≤ coefficientOfVariation ds ∧ coefficientOfVariation ds ≤ 50) := by
  refine ⟨?_, ?_, ?_, ?_, ?_⟩
  · intro h0
    unfold coefficientOfVariation
    rw [if_neg (by rw [h0]; exact lt_irrefl 0)]
  · intro hpos
    unfold coefficientOfVariation
    rw [if_pos hpos]
    rfl
  · unfold predictionConfidence
    split_ifs with c1 c2
    · exact iff_of_true rfl c1
    · exact iff_of_false (by decide) c1
    · exact iff_of_false (by decide) c1
  · unfold predictionConfidence
    split_ifs with c1 c2
    · exact iff_of_false (by decide) (fun hx => absurd c1 (by linarith))
    · exact iff_of_true rfl c2
    · exact iff_of_false (by decide) c2
  · unfold predictionConfidence
    split_ifs with c1 c2
    · exact iff_of_false (by decide) (fun hx => absurd c1 (not_lt.mpr hx.1))
    · exact iff_of_false (by decide) (fun hx => absurd c2 (not_lt.mpr hx.2))
    · exact iff_of_true rfl ⟨le_of_not_lt c1, le_of_not_lt c2⟩

/-- Witness for C1 on the constant series `[10, 10, 10]` (CV = 0, so the
confidence comes out `high`). -/
theorem predictionConfidence_cv_bands_witness :
    predictionConfidence [10, 10, 10] = "high" := by
  have h := predictionConfidence_cv_bands [10, 10, 10] (by decide) (by norm_num)
  have ha : averageDaily ([10, 10, 10] : List ℚ) = 10 := by
    unfold averageDaily
    norm_num [List.sum_cons, List.sum_nil]
  have hv : popVariance ([10, 10, 10] : List ℚ) = 0 := by
    unfold popVariance
    rw [ha]
    norm_num [List.sum_cons, List.sum_nil]
  have hcv : coefficientOfVariation ([10, 10, 10] : List ℚ) = 0 := by
    rw [h.2.1 (by rw [ha]; norm_num), hv, ha]
    norm_num
  exact h.2.2.1.mpr (by rw [hcv]; norm_num)

/-- C3 counterexample: on an empty record set the prediction is 0 but the
confidence field holds the label `low` (with method `insufficient_data`), not
the numeric value 0 the claim asserts. -/
theorem salesPrediction_empty_confidence_label :
    (salesPrediction [] 0 7).confidence = "low" ∧
    (salesPrediction [] 0 7).prediction = 0 ∧
    (salesPrediction [] 0 7).method = "insufficient_data" ∧
    "low" ≠ "0" := by
  have hd : dailyTotals [] 0 = [] := rfl
  refine ⟨?_, ?_, ?_, by decide⟩ <;> simp [salesPrediction, hd]

/-- C3 amended: whenever the daily-sales query yields no rows (in particular
for an empty record set), the prediction operation returns prediction 0 with
confidence label `low` and method `insufficient_data`, for any horizon, never
a fault. -/
theorem salesPrediction_no_rows (orders : List Order) (startDay : ℤ)
    (daysAhead : ℚ) (h : dailyTotals orders startDay = []) :
    salesPrediction orders startDay daysAhead =
      { prediction := 0, confidence := "low", method := "insufficient_data" } := by
  simp [salesPrediction, h]

/-- Witness for the amended C3: the empty record set with horizon 7. -/
theorem salesPrediction_no_rows_witness :
    dailyTotals [] 0 = [] ∧
    salesPrediction [] 0 7 =
      { prediction := 0, confidence := "low", method := "insufficient_data" } :=
  ⟨rfl, salesPrediction_no_rows [] 0 7 rfl⟩

/-! ### Helper computations for the single-day record set -/

lemma predictionRows_single :
    predictionRows [Order.mk 0 60 "selesai"] (-29) = [Order.mk 0 60 "selesai"] := by
  simp [predictionRows, countedStatus]

lemma dailyTotals_single :
    dailyTotals [Order.mk 0 60 "selesai"] (-29) = [60] := by
  rw [dailyTotals, salesDays, predictionRows_single]
  norm_num [List.sum_cons, List.sum_nil]

/-- C2 counterexample: a record set with sales on a single day inside a
30-day lookback produces a daily sequence of length 1, not 30, and the
average daily figure is 60 (total over days-with-sales), not 60/30. -/
theorem dailyTotals_not_window_length :
    (dailyTotals [Order.mk 0 60 "selesai"] (-29)).length = 1 ∧ (1 : ℕ) ≠ 30 ∧
    averageDaily (dailyTotals [Order.mk 0 60 "selesai"] (-29)) = 60 ∧
    (60 : ℚ) ≠ 60 / 30 := by
  rw [dailyTotals_single]
  refine ⟨rfl, by decide, ?_, by norm_num⟩
  unfold averageDaily
  norm_num [List.sum_cons, List.sum_nil]

/-- C2 amended: the daily sequence the forecast averages over has one entry
per distinct day that actually has kept records (no zero gap-filling), and the
average daily sales figure divides the total by that days-with-sales count,
not by the requested window length. -/
theorem averageDaily_divides_by_days_with_sales (orders : List Order)
    (startDay : ℤ) (h : dailyTotals orders startDay ≠ []) :
    averageDaily (dailyTotals orders startDay) =
      (dailyTotals orders startDay).sum /
        ((dailyTotals orders startDay).length : ℚ) ∧
    (dailyTotals orders startDay).length =
      ((predictionRows orders startDay).map (·.day)).dedup.length := by
  constructor
  · unfold averageDaily
    rw [if_pos (List.length_pos.mpr h)]
  · unfold dailyTotals salesDays
    rw [List.length_map, List.length_insertionSort]

/-- Witness for the amended C2 on the single-day record set. -/
theorem averageDaily_divides_witness :
    dailyTotals [Order.mk 0 60 "selesai"] (-29) ≠ [] ∧
    (averageDaily (dailyTotals [Order.mk 0 60 "selesai"] (-29)) =
        (dailyTotals [Order.mk 0 60 "selesai"] (-29)).sum /
          ((dailyTotals [Order.mk 0 60 "selesai"] (-29)).length : ℚ) ∧
      (dailyTotals [Order.mk 0 60 "selesai"] (-29)).length =
        ((predictionRows [Order.mk 0 60 "selesai"] (-29)).map
          (·.day)).dedup.length) :=
  ⟨by rw [dailyTotals_single]; decide,
    averageDaily_divides_by_days_with_sales _ _ (by rw [dailyTotals_single]; decide)⟩

/-! ### Claims about product_recommendations -/

/-- C9: a top-selling product whose total stock across the box, pack and unit
dimensions is zero has a days-until-stockout of 0, and since both restock
rules require a strictly positive days-until-stockout, it never receives a
`restock_urgent` or `restock` action. -/
theorem zero_stock_no_restock (top0 : ℚ) (item : SoldItem) (produk : Produk)
    (h : totalStock produk = 0) :
    daysUntilStockout item produk = 0 ∧
    ∀ a ∈ recommendationActions top0 item produk,
      a.type ≠ "restock_urgent" ∧ a.type ≠ "restock" := by
  have hd : daysUntilStockout item produk = 0 := by
    unfold daysUntilStockout
    split_ifs with h1
    · rw [h, zero_div]
    · rfl
  refine ⟨hd, ?_⟩
  intro a ha
  unfold recommendationActions at ha
  rw [hd] at ha
  rw [if_neg (by norm_num : ¬((0:ℚ) < 7 ∧ (0:ℚ) < 0)),
    if_neg (by norm_num : ¬((0:ℚ) < 14 ∧ (0:ℚ) < 0))] at ha
  simp only [List.nil_append] at ha
  rcases List.mem_append.mp ha with hb | hb
  · split_ifs at hb
    · simp only [List.mem_singleton] at hb
      subst hb
      exact ⟨by decide, by decide⟩
    · simp at hb
  · split_ifs at hb
    · simp only [List.mem_singleton] at hb
      subst hb
      exact ⟨by decide, by decide⟩
    · simp at hb

/-- Witness for C9: a product with all three stock dimensions 0 and 5 units
sold over the window. -/
theorem zero_stock_no_restock_witness :
    totalStock (Produk.mk 1 "Produk A" 0 0 0 true) = 0 ∧
    (daysUntilStockout (SoldItem.mk 1 5 1000)
        (Produk.mk 1 "Produk A" 0 0 0 true) = 0 ∧
      ∀ a ∈ recommendationActions 10 (SoldItem.mk 1 5 1000)
          (Produk.mk 1 "Produk A" 0 0 0 true),
        a.type ≠ "restock_urgent" ∧ a.type ≠ "restock") :=
  ⟨by norm_num [totalStock],
    zero_stock_no_restock 10 _ _ (by norm_num [totalStock])⟩

/-- C10 counterexample: with a non-empty ranked list whose top product sold a
strictly positive quantity but has no matching `produk` row, the loop skips it
(`continue`), so it receives no recommendation at all — in particular no
`promote` action; the claim as stated is false. -/
theorem productRecommendations_missing_top :
    productRecommendations [SoldItem.mk 1 5 1000] [] = [] ∧ (0:ℚ) < 5 :=
  ⟨rfl, by norm_num⟩

/-- C10 amended: whenever the ranked list is non-empty, the top product's
quantity is strictly positive, and the top product has a matching `produk`
record, the first emitted recommendation is for that product and contains a
`promote` action (its quantity exceeds half of itself). -/
theorem top_product_promoted (t0 : SoldItem) (rest : List SoldItem)
    (table : List Produk) (produk : Produk)
    (hfind : table.find? (fun p => p.id == t0.produkId) = some produk)
    (hpos : 0 < t0.totalTerjual) :
    ∃ r, (productRecommendations (t0 :: rest) table).head? = some r ∧
      r.produkId = produk.id ∧
      PAction.mk "promote" "low" ∈ r.actions := by
  refine ⟨{ produkId := produk.id
            actions := recommendationActions t0.totalTerjual t0 produk }, ?_, rfl, ?_⟩
  · have heq : productRecommendations (t0 :: rest) table =
        (t0 :: rest).filterMap (fun item =>
          (table.find? (fun p => p.id == item.produkId)).map (fun pr =>
            { produkId := pr.id
              actions := recommendationActions t0.totalTerjual item pr })) := rfl
    rw [heq, List.filterMap_cons, hfind]
    simp
  · unfold recommendationActions
    refine List.mem_append_right _ ?_
    have hc : t0.totalTerjual * (1 / 2) < t0.totalTerjual := by linarith
    rw [if_pos hc]
    exact List.mem_singleton_self _

/-- Witness for the amended C10: one ranked product with quantity 5 whose
`produk` row exists. -/
theorem top_product_promoted_witness :
    (List.find? (fun p => p.id == (SoldItem.mk 1 5 1000).produkId)
        [Produk.mk 1 "Produk A" 10 10 10 true] =
      some (Produk.mk 1 "Produk A" 10 10 10 true)) ∧
    (0:ℚ) < (SoldItem.mk 1 5 1000).totalTerjual ∧
    ∃ r, (productRecommendations [SoldItem.mk 1 5 1000]
        [Produk.mk 1 "Produk A" 10 10 10 true]).head? = some r ∧
      r.produkId = (Produk.mk 1 "Produk A" 10 10 10 true).id ∧
      PAction.mk "promote" "low" ∈ r.actions :=
  ⟨by decide, by norm_num, top_product_promoted _ [] _ _ (by decide) (by norm_num)⟩

/-! ### Claim about time_analysis -/

/-- C7: the hourly and day-of-week aggregations are each sorted descending by
revenue, the best hour and best day are the heads of their non-empty result
lists (present exactly when the list is non-empty, with no order-count floor),
and one recommendation string is emitted per present best entry. -/
theorem timeAnalysis_bests (orders : List TOrder) (startDay : ℤ) :
    List.Sorted hourRevDesc (hourlyRows orders startDay) ∧
    List.Sorted dayRevDesc (dayOfWeekRows orders startDay) ∧
    bestHour orders startDay = (hourlyRows orders startDay).head? ∧
    bestDay orders startDay = (dayOfWeekRows orders startDay).head? ∧
    ((bestHour orders startDay).isSome ↔ hourlyRows orders startDay ≠ []) ∧
    ((bestDay orders startDay).isSome ↔ dayOfWeekRows orders startDay ≠ []) ∧
    (timeRecommendations orders startDay).length =
      (if (bestHour orders startDay).isSome then 1 else 0) +
      (if (bestDay orders startDay).isSome then 1 else 0) := by
  refine ⟨?_, ?_, rfl, rfl, ?_, ?_, ?_⟩
  · unfold hourlyRows
    exact List.sorted_insertionSort hourRevDesc _
  · unfold dayOfWeekRows
    exact List.sorted_insertionSort dayRevDesc _
  · unfold bestHour
    cases hourlyRows orders startDay <;> simp
  · unfold bestDay
    cases dayOfWeekRows orders startDay <;> simp
  · unfold timeRecommendations
    cases hb : bestHour orders startDay <;> cases hd : bestDay orders startDay <;>
      simp [hb, hd]
